import Mathlib

/-!
# Verification of the claude-club facility booking core

Shallow embedding of the booking admission controller
(`src/backend/src/models/Booking.js`, `Booking.create`, `Booking.cancel`,
`Booking.updateStatus`) and of the slot availability generator
(`Facility.getAvailableSlots` in the same file), together with proofs of the
behavioural claims about them.

Conventions of the embedding:
* Instants (`start_time`, `end_time`, the slot cursor) are `Int` minutes since
  the epoch.  The source works in milliseconds (`Date.getTime()`, `duration *
  60 * 1000`); every quantity it manipulates is a whole number of minutes, so
  the arithmetic is identical up to the constant factor 60000.
* A calendar date is a `Nat` day index; the instant `t` falls on day
  `t / 1440` (floor division), which models both SQL `DATE(start_time)` and
  `moment(t).format('YYYY-MM-DD')`.
* A time of day (`operating_hours_start/_end`, stored as `TIME` / `'HH:mm'`
  strings in the source) is a `Nat` number of minutes since midnight.  The
  source compares `moment(startTime).format('HH:mm:ss')` with the stored
  strings lexicographically; on fixed-width `HH:mm:ss` strings lexicographic
  order coincides with numeric time-of-day order, which is what we use.
* SQL result sets are lists of rows; `LIMIT 1` / `rows[0]` is `List.find?` /
  `List.head?`; an SQL `UPDATE ... RETURNING *` is a `List.map` over the rows
  plus the first updated row.
* The fields `notes` and `total_cost` are carried by the real rows but never
  read or branched on by any operation under study, so they are omitted from
  the row structures.
-/

/-- Status of a booking row.  The migration's CHECK constraint lists
`confirmed, cancelled, completed, no_show`; the queries additionally filter on
`'pending'`, so it is included as a representable value. -/
inductive BStatus where
  | confirmed
  | pending
  | cancelled
  | completed
  | no_show
deriving DecidableEq, Repr

/-- Status of a facility row (`CHECK (status IN ('available', 'maintenance',
'closed'))`). -/
inductive FStatus where
  | available
  | maintenance
  | closed
deriving DecidableEq, Repr

/-- Status of a membership row (`CHECK (status IN ('active', 'expired',
'cancelled', 'suspended'))`). -/
inductive MStatus where
  | active
  | expired
  | cancelled
  | suspended
deriving DecidableEq, Repr

/-- A row of the `bookings` table (the columns the booking core reads). -/
structure BookingRow where
  id : Nat
  user_id : Nat
  facility_id : Nat
  start_time : Int
  end_time : Int
  status : BStatus
deriving DecidableEq, Repr

/-- A row of the `facilities` table (the columns the booking core reads).
`ftype` embeds the `type` column (`type` is reserved in Lean). -/
structure FacilityRow where
  id : Nat
  ftype : String
  status : FStatus
  operating_hours_start : Nat
  operating_hours_end : Nat
  booking_duration_minutes : Nat
  booking_buffer_minutes : Nat
deriving DecidableEq, Repr

/-- A row of the membership query's result: `memberships` joined with
`membership_types` (Booking.js lines 58-65), flattened to the columns the
admission controller reads.  `end_date` is a day index, `created_at` an
instant. -/
structure MembershipRow where
  user_id : Nat
  status : MStatus
  end_date : Nat
  created_at : Int
  facilities_access : List String
  max_bookings_per_day : Nat
  max_booking_days_ahead : Nat
deriving DecidableEq, Repr

/-- The persistent state the booking core reads and writes: the three tables
plus the id the next inserted booking row receives. -/
structure DB where
  bookings : List BookingRow
  facilities : List FacilityRow
  memberships : List MembershipRow
  nextId : Nat
deriving DecidableEq, Repr

/-- `DATE(t)` / `moment(t).format('YYYY-MM-DD')`: the day index of instant
`t`, floor division by the 1440 minutes of a day. -/
def dateOf (t : Int) : Int :=
  Int.ediv t 1440

/-- `moment(t).format('HH:mm:ss')` viewed numerically: the time of day of
instant `t` in minutes since midnight. -/
def timeOfDay (t : Int) : Int :=
  Int.emod t 1440

/-- `moment(a).diff(b, 'days')` (Booking.js line 103): the real quotient
`(a - b) / 1440` rounded toward zero (moment's `absFloor`: floor for
non-negative values, ceiling for negative ones). -/
def momentDiffDays (a b : Int) : Int :=
  if b ≤ a then ((a - b).toNat / 1440 : Nat) else -(((b - a).toNat / 1440 : Nat) : Int)

/-- The three-case interval test of the conflict query (Booking.js lines
14-18), for an existing booking `[s, e)` against a requested `[ns, ne)`:
`(start_time <= $2 AND end_time > $2) OR (start_time < $3 AND end_time >= $3)
OR (start_time >= $2 AND end_time <= $3)`. -/
def conflictCases (s e ns ne : Int) : Bool :=
  (decide (s ≤ ns) && decide (ns < e)) ||
  (decide (s < ne) && decide (ne ≤ e)) ||
  (decide (ns ≤ s) && decide (e ≤ ne))

/-- The shared half-open overlap primitive as the spec words it:
`overlaps(a, b) = a.start < b.end && b.start < a.end`.  Written from the
spec's design note; it is the refinement target the code's tests are compared
against. -/
def overlaps (aStart aEnd bStart bEnd : Int) : Bool :=
  decide (aStart < bEnd) && decide (bStart < aEnd)

/-- `status IN ('confirmed', 'pending')`, the filter of the conflict query and
of the daily-count and slot-generator booking loads. -/
def activeCP (b : BookingRow) : Bool :=
  b.status = BStatus.confirmed ∨ b.status = BStatus.pending

/-- The rows returned by the conflict query of `Booking.create` (lines 10-24):
bookings of the facility with status confirmed or pending whose interval
matches the three-case test against the request. -/
def conflictingBookings (db : DB) (facilityId : Nat) (startTime endTime : Int) :
    List BookingRow :=
  db.bookings.filter fun b =>
    b.facility_id = facilityId ∧ activeCP b = true ∧
      conflictCases b.start_time b.end_time startTime endTime = true

/-- The facility query of `Booking.create` (lines 31-37): `WHERE id = $1 AND
status = 'available'`, first row. -/
def findAvailableFacility (db : DB) (facilityId : Nat) : Option FacilityRow :=
  db.facilities.find? fun f => f.id = facilityId ∧ f.status = FStatus.available

/-- The facility-type query of `Booking.create` (lines 75-79): `SELECT type
FROM facilities WHERE id = $1`, `rows[0].type`.  The earlier status-filtered
query has already matched, so a row exists and the `""` default of `getD` is
never taken. -/
def facilityTypeOf (db : DB) (facilityId : Nat) : String :=
  ((db.facilities.find? fun f => f.id = facilityId).map FacilityRow.ftype).getD ""

/-- The membership query of `Booking.create` (lines 58-65): active memberships
of the user with `end_date >= CURRENT_DATE`, `ORDER BY created_at DESC LIMIT
1`, i.e. the row with the greatest `created_at` (first such row on ties). -/
def activeMembership (db : DB) (today : Nat) (userId : Nat) : Option MembershipRow :=
  (db.memberships.filter fun m =>
      m.user_id = userId ∧ m.status = MStatus.active ∧ today ≤ m.end_date).foldl
    (fun acc m =>
      match acc with
      | none => some m
      | some a => if a.created_at < m.created_at then some m else some a)
    none

/-- The daily-count query of `Booking.create` (lines 87-96): the user's
bookings on the request's date with status confirmed or pending. -/
def dailyBookingsCount (db : DB) (userId : Nat) (bookingDate : Int) : Nat :=
  (db.bookings.filter fun b =>
    b.user_id = userId ∧ dateOf b.start_time = bookingDate ∧ activeCP b = true).length

/-- The error outcomes of `Booking.create`, one per `throw` site, in source
order.  The messages: `conflict` = 'Facility is already booked for this time
slot.', `facilityUnavailable` = 'Facility not available or does not exist.',
`durationMismatch` = 'Booking duration must be exactly N minutes.',
`outsideOperatingHours` = 'Booking time is outside facility operating
hours.', `membershipRequired` = 'Active membership required to make
bookings.', `accessDenied` = 'Your membership does not include access to this
facility.', `dailyLimitExceeded` = 'Daily booking limit of N exceeded.',
`advanceLimitExceeded` = 'Bookings can only be made N days in advance.'. -/
inductive CreateError where
  | conflict
  | facilityUnavailable
  | durationMismatch
  | outsideOperatingHours
  | membershipRequired
  | accessDenied
  | dailyLimitExceeded
  | advanceLimitExceeded
deriving DecidableEq, Repr

namespace Booking

/-- `Booking.create` (Booking.js lines 5-121): the admission controller.  The
checks appear in source order: conflict scan, facility lookup, exact
duration, operating hours (start time of day only, as in line 52), active
membership, facility-type entitlement, daily limit, advance window; on
success the row is inserted with status `confirmed`.  `today` is the day
index of `CURRENT_DATE` / `moment().startOf('day')`. -/
def create (db : DB) (today : Nat) (userId facilityId : Nat) (startTime endTime : Int) :
    Except CreateError (BookingRow × DB) :=
  if 0 < (conflictingBookings db facilityId startTime endTime).length then
    .error .conflict
  else
    match findAvailableFacility db facilityId with
    | none => .error .facilityUnavailable
    | some facility =>
      let bookingDuration := endTime - startTime
      if bookingDuration ≠ (facility.booking_duration_minutes : Int) then
        .error .durationMismatch
      else
        let bookingTime := timeOfDay startTime
        if bookingTime < (facility.operating_hours_start : Int) ∨
            (facility.operating_hours_end : Int) < bookingTime then
          .error .outsideOperatingHours
        else
          match activeMembership db today userId with
          | none => .error .membershipRequired
          | some membership =>
            if ¬ membership.facilities_access.contains (facilityTypeOf db facilityId) then
              .error .accessDenied
            else
              let bookingDate := dateOf startTime
              if membership.max_bookings_per_day ≤ dailyBookingsCount db userId bookingDate then
                .error .dailyLimitExceeded
              else
                let daysAhead := momentDiffDays startTime ((today : Int) * 1440)
                if (membership.max_booking_days_ahead : Int) < daysAhead then
                  .error .advanceLimitExceeded
                else
                  let row : BookingRow :=
                    { id := db.nextId, user_id := userId, facility_id := facilityId,
                      start_time := startTime, end_time := endTime,
                      status := BStatus.confirmed }
                  .ok (row, { db with bookings := db.bookings ++ [row],
                                      nextId := db.nextId + 1 })

/-- The row filter of `Booking.cancel`'s UPDATE (Booking.js line 218):
`id = $1 AND user_id = $2 AND status IN ('confirmed', 'pending')`. -/
def cancelPred (id userId : Nat) (b : BookingRow) : Bool :=
  b.id = id ∧ b.user_id = userId ∧ activeCP b = true

/-- `Booking.cancel` (Booking.js lines 214-224): sets status `cancelled` on
every row matching `cancelPred` and returns the first updated row
(`rows[0]`), or `none` when no row matched. -/
def cancel (db : DB) (id userId : Nat) : Option BookingRow × DB :=
  (((db.bookings.find? (cancelPred id userId)).map
      fun b => { b with status := BStatus.cancelled }),
   { db with
      bookings := db.bookings.map fun b =>
        if cancelPred id userId b then { b with status := BStatus.cancelled } else b })

/-- `Booking.updateStatus` (Booking.js lines 226-236): sets the given status
on every row with the given id, with no conflict re-check, and returns the
first updated row. -/
def updateStatus (db : DB) (id : Nat) (status : BStatus) : Option BookingRow × DB :=
  (((db.bookings.find? fun b => b.id = id).map fun b => { b with status := status }),
   { db with
      bookings := db.bookings.map fun b =>
        if b.id = id then { b with status := status } else b })

end Booking

/-- The booking objects the slot generator builds (Booking.js lines 516-521):
`{ startTime: new Date(row.start_time), endTime: new Date(row.end_time) }`.
Note the camelCase field names. -/
structure SlotBooking where
  startTime : Int
  endTime : Int
deriving DecidableEq, Repr

/-- JavaScript property access `booking.start_time` on a `SlotBooking`: the
mapped objects carry only `startTime` / `endTime`, so the snake_case property
read at Booking.js line 544 yields `undefined`, embedded as `none`. -/
def SlotBooking.start_time (_ : SlotBooking) : Option Int :=
  none

/-- JavaScript property access `booking.end_time` on a `SlotBooking`: absent,
hence `undefined` / `none` (see `SlotBooking.start_time`). -/
def SlotBooking.end_time (_ : SlotBooking) : Option Int :=
  none

/-- The JavaScript `<` comparison on possibly-`undefined` numbers: if either
side is `undefined` the comparison is `false` (relational comparison against
`NaN`). -/
def jsLt : Option Int → Option Int → Bool
  | some a, some b => decide (a < b)
  | _, _ => false

/-- The slot-conflict test of the generator (Booking.js lines 543-545):
`slotStart < booking.end_time && slotEnd > booking.start_time`.  Both
property reads hit absent fields, so the test is `false` for every booking;
the definition keeps the source's shape and lets that fact be proved rather
than assumed. -/
def slotConflicts (slotStart slotEnd : Int) (booking : SlotBooking) : Bool :=
  jsLt (some slotStart) booking.end_time && jsLt booking.start_time (some slotEnd)

/-- One generated slot (Booking.js lines 548-559). -/
structure Slot where
  startTime : Int
  endTime : Int
  available : Bool
deriving DecidableEq, Repr

/-- The result object of `Facility.getAvailableSlots` (Booking.js lines
565-572). -/
structure SlotsResult where
  bookingDurationMinutes : Nat
  operatingHoursStart : Nat
  operatingHoursEnd : Nat
  availableSlots : List Slot
deriving DecidableEq, Repr

/-- The `while` loop of `Facility.getAvailableSlots` (Booking.js lines
538-563), fuel-indexed: while `currentTime + slotDuration <= dayEnd`, emit
the slot `[currentTime, currentTime + slotDuration)` marked by
`slotConflicts`, then advance the cursor past the slot and the buffer.
`none` means the fuel ran out, which (for the fuel chosen by the caller
below) happens exactly when the source loop never terminates. -/
def genSlots (bookings : List SlotBooking) (slotDuration bufferTime : Nat) (dayEnd : Int) :
    Nat → Int → List Slot → Option (List Slot)
  | 0, _, _ => none
  | fuel + 1, currentTime, acc =>
    if currentTime + (slotDuration : Int) ≤ dayEnd then
      let slotStart := currentTime
      let slotEnd := currentTime + (slotDuration : Int)
      let isConflicting := bookings.any (slotConflicts slotStart slotEnd)
      genSlots bookings slotDuration bufferTime dayEnd fuel
        (slotEnd + (bufferTime : Int))
        (acc ++ [{ startTime := slotStart, endTime := slotEnd, available := !isConflicting }])
    else
      some acc

namespace Facility

/-- `Facility.getAvailableSlots` (Booking.js lines 493-573).  The LEFT JOIN
returns no rows exactly when the facility id is absent (result `some none`,
the controller's facility-not-found error); otherwise the facility's bookings
on `date` with status confirmed or pending are projected to `SlotBooking`s
and the slot loop runs from `date @ operating_hours_start` to `date @
operating_hours_end`.  The outer `none` encodes a loop that never terminates:
the fuel `(dayEnd + 1 - dayStart).toNat + 1` is provably sufficient whenever
the cursor advances (`slotDuration + bufferTime > 0`), and when it does not
advance no amount of fuel returns. -/
def getAvailableSlots (db : DB) (facilityId : Nat) (date : Nat) :
    Option (Option SlotsResult) :=
  match db.facilities.find? fun f => f.id = facilityId with
  | none => some none
  | some facility =>
    let bookings := (db.bookings.filter fun b =>
        b.facility_id = facilityId ∧ dateOf b.start_time = (date : Int) ∧
          activeCP b = true).map
      fun b => ({ startTime := b.start_time, endTime := b.end_time } : SlotBooking)
    let dayStart := (date : Int) * 1440 + (facility.operating_hours_start : Int)
    let dayEnd := (date : Int) * 1440 + (facility.operating_hours_end : Int)
    match genSlots bookings facility.booking_duration_minutes
        facility.booking_buffer_minutes dayEnd ((dayEnd + 1 - dayStart).toNat + 1)
        dayStart [] with
    | none => none
    | some slots =>
      some (some { bookingDurationMinutes := facility.booking_duration_minutes,
                   operatingHoursStart := facility.operating_hours_start,
                   operatingHoursEnd := facility.operating_hours_end,
                   availableSlots := slots })

end Facility

/-- `status IN ('confirmed', 'pending')` on a bare status value;
`activeCP b = activeStatus b.status` holds definitionally. -/
def activeStatus (st : BStatus) : Bool :=
  st = BStatus.confirmed ∨ st = BStatus.pending

/-- Whether an `Except` outcome of the admission controller is a success. -/
def isOkB (x : Except CreateError (BookingRow × DB)) : Bool :=
  match x with
  | .ok _ => true
  | .error _ => false

/-- One caller-visible mutation of the booking store: the three operations the
invariant claims quantify over. -/
inductive Op where
  | create (today userId facilityId : Nat) (startTime endTime : Int)
  | cancel (id userId : Nat)
  | updateStatus (id : Nat) (status : BStatus)
deriving DecidableEq, Repr

/-- Run one operation against the store: a failed `create` leaves the store
unchanged (the transaction rolls back), `cancel` and `updateStatus` keep
their updated table. -/
def applyOp (db : DB) : Op → DB
  | .create today uid fid s e =>
    match Booking.create db today uid fid s e with
    | .ok (_, db') => db'
    | .error _ => db
  | .cancel id uid => (Booking.cancel db id uid).2
  | .updateStatus id st => (Booking.updateStatus db id st).2

/-- Run a sequence of operations left to right. -/
def run (db : DB) (ops : List Op) : DB :=
  ops.foldl applyOp db

/-- An operation that never sets a booking to a status in
`{confirmed, pending}`: `create` and `cancel` always qualify, a status update
qualifies when its target status is outside that set — which covers every
transition the spec names for `updateBookingStatus` (`confirmed →
{completed, no_show}`, any `→ cancelled`). -/
def Op.allowed : Op → Bool
  | .updateStatus _ st => !(activeStatus st)
  | _ => true

/-- The claim C1 invariant, worded as the spec words it: no two bookings of
one facility with status in `{confirmed, completed}` have `[start, end)`
intervals that meet the half-open overlap test. -/
def NoOverlapCC (l : List BookingRow) : Prop :=
  l.Pairwise fun a b =>
    a.facility_id = b.facility_id →
    (a.status = BStatus.confirmed ∨ a.status = BStatus.completed) →
    (b.status = BStatus.confirmed ∨ b.status = BStatus.completed) →
    overlaps a.start_time a.end_time b.start_time b.end_time = false

/-- The invariant the code actually maintains: no two bookings of one
facility with status in `{confirmed, pending}` — the set the conflict query
scans — overlap under the half-open test. -/
def NoOverlapCP (l : List BookingRow) : Prop :=
  l.Pairwise fun a b =>
    a.facility_id = b.facility_id → activeCP a = true → activeCP b = true →
    overlaps a.start_time a.end_time b.start_time b.end_time = false

/-- Well-formed store: booking intervals are non-empty, facility slot
durations are positive (the API's validation admits only 15..480, and the
column default is 60), and the conflict-scanned set is overlap-free. -/
def WF (db : DB) : Prop :=
  (∀ b ∈ db.bookings, b.start_time < b.end_time) ∧
  (∀ f ∈ db.facilities, 0 < f.booking_duration_minutes) ∧
  NoOverlapCP db.bookings

deriving instance DecidableEq for Except

instance (l : List BookingRow) : Decidable (NoOverlapCC l) := by
  unfold NoOverlapCC; infer_instance

instance (l : List BookingRow) : Decidable (NoOverlapCP l) := by
  unfold NoOverlapCP; infer_instance

instance (db : DB) : Decidable (WF db) := by
  unfold WF; infer_instance

/-- Fixture: a facility open 08:00-10:00 with 60-minute slots and no buffer,
the configuration of the spec's slot-partition and consistency properties. -/
def gymFacility : FacilityRow :=
  { id := 0, ftype := "gym", status := FStatus.available,
    operating_hours_start := 480, operating_hours_end := 600,
    booking_duration_minutes := 60, booking_buffer_minutes := 0 }

/-- Fixture: user 1 holds an active membership covering the fixture facility,
2 bookings per day, 7 days ahead. -/
def gymMembership : MembershipRow :=
  { user_id := 1, status := MStatus.active, end_date := 30, created_at := 0,
    facilities_access := ["gym"], max_bookings_per_day := 2,
    max_booking_days_ahead := 7 }

/-- Fixture: the store with the fixture facility and membership and no
bookings. -/
def baseDB : DB :=
  { bookings := [], facilities := [gymFacility], memberships := [gymMembership],
    nextId := 0 }

/-- The row `Booking.create` inserts for user 1 booking `[09:00, 10:00)` of
day 0 against `baseDB`. -/
def bookedRow : BookingRow :=
  { id := 0, user_id := 1, facility_id := 0, start_time := 540, end_time := 600,
    status := BStatus.confirmed }

/-- `baseDB` after that insert. -/
def bookedDB : DB :=
  { baseDB with bookings := [bookedRow], nextId := 1 }

/-- Fixture: another user's confirmed booking `[09:00, 10:00)` of day 0. -/
def clashBooking : BookingRow :=
  { id := 9, user_id := 2, facility_id := 0, start_time := 540, end_time := 600,
    status := BStatus.confirmed }

/-- Fixture: `baseDB` with `clashBooking` present. -/
def clashDB : DB :=
  { baseDB with bookings := [clashBooking] }

/-- Fixture: the same interval held by a booking with status `completed` —
a status the conflict query does not scan. -/
def completedBooking : BookingRow :=
  { clashBooking with status := BStatus.completed }

/-- Fixture: `baseDB` with only `completedBooking`. -/
def completedDB : DB :=
  { baseDB with bookings := [completedBooking] }

/-- Fixture: a confirmed booking of user 1, id 5, for the cancel claims. -/
def ownBooking : BookingRow :=
  { id := 5, user_id := 1, facility_id := 0, start_time := 540, end_time := 600,
    status := BStatus.confirmed }

/-- Fixture: `baseDB` with `ownBooking`. -/
def ownDB : DB :=
  { baseDB with bookings := [ownBooking] }

/-- Fixture: a facility whose slot duration and buffer are both zero — the
configuration-error case of the generator — and whose status is
`maintenance`. -/
def pathologicalFacility : FacilityRow :=
  { gymFacility with
    booking_duration_minutes := 0
    booking_buffer_minutes := 0
    status := FStatus.maintenance }

/-- Fixture: the store holding only `pathologicalFacility`. -/
def pathologicalDB : DB :=
  { baseDB with facilities := [pathologicalFacility] }

/-- Fixture: the fixture facility under maintenance (normal slot
configuration). -/
def maintFacility : FacilityRow :=
  { gymFacility with status := FStatus.maintenance }

/-- Fixture: the store holding only `maintFacility`. -/
def maintDB : DB :=
  { baseDB with facilities := [maintFacility] }

/-! ## Shared lemmas -/

/-- For non-empty intervals the three-case test of the conflict query agrees
with the half-open overlap primitive. -/
theorem conflictCases_eq_overlaps {s e ns ne : Int} (h1 : s < e) (h2 : ns < ne) :
    conflictCases s e ns ne = overlaps s e ns ne := by
  have hiff : conflictCases s e ns ne = true ↔ overlaps s e ns ne = true := by
    simp only [conflictCases, overlaps, Bool.or_eq_true, Bool.and_eq_true,
      decide_eq_true_eq]
    omega
  cases hc : conflictCases s e ns ne <;> cases ho : overlaps s e ns ne <;> simp_all

/-- The generator's slot-conflict test is false for every booking: both
property reads of Booking.js line 544 hit fields absent from the mapped
objects. -/
theorem slotConflicts_false (slotStart slotEnd : Int) (booking : SlotBooking) :
    slotConflicts slotStart slotEnd booking = false :=
  rfl

/-- When both the slot duration and the buffer are zero, the loop guard stays
true and the cursor never advances: no amount of fuel makes the loop
return. -/
theorem genSlots_zero_step (bookings : List SlotBooking) (dayEnd : Int) :
    ∀ (fuel : Nat) (cursor : Int) (acc : List Slot), cursor ≤ dayEnd →
      genSlots bookings 0 0 dayEnd fuel cursor acc = none := by
  intro fuel
  induction fuel with
  | zero => intro cursor acc _; rfl
  | succ n ih =>
    intro cursor acc h
    have h' : cursor + ((0 : Nat) : Int) ≤ dayEnd := by simpa using h
    simp only [genSlots]
    rw [if_pos h']
    exact ih _ _ (by simpa using h)

/-- When the loop advances (`0 < slotDuration + bufferTime`), fuel of
`(dayEnd + 1 - cursor).toNat + 1` is enough for the loop to return. -/
theorem genSlots_some (bookings : List SlotBooking) (dur buf : Nat) (dayEnd : Int)
    (hpos : 0 < dur + buf) :
    ∀ (fuel : Nat) (cursor : Int) (acc : List Slot),
      (dayEnd + 1 - cursor).toNat + 1 ≤ fuel →
      ∃ l, genSlots bookings dur buf dayEnd fuel cursor acc = some l := by
  intro fuel
  induction fuel with
  | zero => intro cursor acc h; exact absurd h (by omega)
  | succ n ih =>
    intro cursor acc h
    simp only [genSlots]
    by_cases hc : cursor + (dur : Int) ≤ dayEnd
    · rw [if_pos hc]
      exact ih _ _ (by omega)
    · rw [if_neg hc]
      exact ⟨acc, rfl⟩

/-! ## C3: the conflict predicate and the overlap primitive -/

/-- C3 (amended): the three-case conflict test used by `Booking.create` is
logically equivalent, for every pair of intervals with start < end, to the
half-open overlap primitive `overlaps`.  (The slot generator, however, does
not apply these semantics: see the counterexample.) -/
theorem conflict_cases_equiv_overlaps :
    ∀ s e ns ne : Int, s < e → ns < ne →
      conflictCases s e ns ne = overlaps s e ns ne :=
  fun _ _ _ _ h1 h2 => conflictCases_eq_overlaps h1 h2

/-- Witness: the equivalence applied to the concrete intervals `[0, 60)` and
`[30, 90)`. -/
theorem conflict_cases_equiv_overlaps_witness :
    conflictCases 0 60 30 90 = overlaps 0 60 30 90 :=
  conflict_cases_equiv_overlaps 0 60 30 90 (by decide) (by decide)

/-- C3 counterexample: the slot generator does not apply the overlap
semantics.  For the slot `[540, 600)` against a booking occupying exactly
`[540, 600)`, the primitive reports an overlap but the generator's conflict
test reports none (its property reads hit absent fields). -/
theorem slot_generator_overlap_semantics_differ :
    slotConflicts 540 600 { startTime := 540, endTime := 600 } = false ∧
      overlaps 540 600 540 600 = true := by
  decide

/-! ## C7: slot partition on an empty day -/

/-- C7: for the facility with hours 08:00-10:00, 60-minute slots and no
buffer, on a day with zero bookings, `getAvailableSlots` returns exactly the
two slots `[08:00, 09:00)` and `[09:00, 10:00)` in ascending order, both
available. -/
theorem slot_partition_two_slots :
    Facility.getAvailableSlots baseDB 0 0 =
      some (some
        { bookingDurationMinutes := 60, operatingHoursStart := 480,
          operatingHoursEnd := 600,
          availableSlots :=
            [{ startTime := 480, endTime := 540, available := true },
             { startTime := 540, endTime := 600, available := true }] }) := by
  decide

/-! ## C8: advance-window boundary -/

/-- C8: with `maxBookingDaysAhead = 7` and every other precondition
satisfied, a request on the day exactly 7 days after today (`[08:00, 09:00)`
of day 7, instants 10560 and 10620) succeeds, and the same request one day
later (day 8, instants 12000 and 12060) fails with the advance-booking
error. -/
theorem advance_window_boundary :
    isOkB (Booking.create baseDB 0 1 0 10560 10620) = true ∧
      Booking.create baseDB 0 1 0 12000 12060 =
        .error CreateError.advanceLimitExceeded :=
  ⟨rfl, rfl⟩

/-! ## C2: slot/booking consistency (code bug) -/

/-- C2 (code bug): after `createBooking` successfully books `[09:00, 10:00)`,
`getAvailableSlots` for the same facility and day still marks BOTH slots
available — the generator's conflict test reads `booking.start_time` /
`booking.end_time` on objects that carry `startTime` / `endTime`, so no slot
is ever marked unavailable.  The claim (and the spec) expect the
`[09:00, 10:00)` slot to be marked unavailable. -/
theorem slot_generator_ignores_bookings_bug :
    Booking.create baseDB 0 1 0 540 600 = .ok (bookedRow, bookedDB) ∧
      Facility.getAvailableSlots bookedDB 0 0 =
        some (some
          { bookingDurationMinutes := 60, operatingHoursStart := 480,
            operatingHoursEnd := 600,
            availableSlots :=
              [{ startTime := 480, endTime := 540, available := true },
               { startTime := 540, endTime := 600, available := true }] }) :=
  ⟨rfl, rfl⟩

/-! ## C6: generator termination / fail-fast (code bug) -/

/-- C6 (code bug): there is no fail-fast check for `bookingDurationMinutes =
0`.  With duration 0 and buffer 0 the loop guard stays true and the cursor
never advances, so the generator never returns (no fuel suffices), and
`getAvailableSlots` on a store holding such a facility never produces a
result — instead of failing fast with a configuration error as the spec
requires. -/
theorem zero_duration_generator_diverges :
    (∀ fuel : Nat, ∀ acc : List Slot, genSlots [] 0 0 600 fuel 480 acc = none) ∧
      Facility.getAvailableSlots pathologicalDB 0 0 = none :=
  ⟨fun fuel acc => genSlots_zero_step [] 600 fuel 480 acc (by decide),
   by decide⟩

/-! ## C4: exact-duration law -/

/-- C4 counterexample: a request whose duration (30 minutes) differs from the
facility duration (60 minutes) but which overlaps an existing confirmed
booking fails with the conflict error, not the duration error — the conflict
scan runs before the duration check. -/
theorem conflict_error_precedes_duration_error :
    Booking.create clashDB 0 1 0 540 570 = .error CreateError.conflict ∧
      Booking.create clashDB 0 1 0 540 570 ≠ .error CreateError.durationMismatch ∧
      (570 - 540 : Int) ≠ (gymFacility.booking_duration_minutes : Int) := by
  decide

/-- C4 (amended): when the facility exists with status available, a request
whose duration differs from the facility duration never succeeds (so no row
is ever inserted); and when additionally the conflict scan returns no rows,
it fails with the duration error specifically. -/
theorem duration_mismatch_always_fails (db : DB) (today uid fid : Nat) (s e : Int)
    (f : FacilityRow) (hf : findAvailableFacility db fid = some f)
    (hd : e - s ≠ (f.booking_duration_minutes : Int)) :
    (∀ r, Booking.create db today uid fid s e ≠ .ok r) ∧
      (conflictingBookings db fid s e = [] →
        Booking.create db today uid fid s e = .error CreateError.durationMismatch) := by
  constructor
  · intro r hr
    unfold Booking.create at hr
    split at hr
    · simp at hr
    · rw [hf] at hr
      dsimp only at hr
      rw [if_pos hd] at hr
      simp at hr
  · intro hnil
    have hn : ¬ 0 < (conflictingBookings db fid s e).length := by
      rw [hnil]; simp
    unfold Booking.create
    rw [if_neg hn, hf]
    dsimp only
    rw [if_pos hd]

/-- Witness: a 30-minute request against the 60-minute facility with no
conflicting booking fails with the duration error. -/
theorem duration_mismatch_always_fails_witness :
    Booking.create baseDB 0 1 0 540 570 = .error CreateError.durationMismatch :=
  (duration_mismatch_always_fails baseDB 0 1 0 540 570 gymFacility (by decide)
    (by decide)).2 (by decide)

/-! ## C5: operating-hours fit -/

/-- C5 counterexample: a request starting at 09:30 and ending at 10:30
against the facility with hours 08:00-10:00 is admitted — only the start
time of day is checked, the end time of day (630 > 600) is not. -/
theorem end_beyond_hours_admitted :
    isOkB (Booking.create baseDB 0 1 0 570 630) = true ∧
      (gymFacility.operating_hours_end : Int) < timeOfDay 630 := by
  decide

/-- C5 (amended): `Booking.create` checks only the start time of day against
`[operatingHoursStart, operatingHoursEnd]`: every admitted request has its
start time of day within the facility hours, and nothing constrains the end
time of day (see the counterexample). -/
theorem create_ok_start_within_hours (db : DB) (today uid fid : Nat) (s e : Int)
    (r : BookingRow × DB) (h : Booking.create db today uid fid s e = .ok r)
    (f : FacilityRow) (hf : findAvailableFacility db fid = some f) :
    (f.operating_hours_start : Int) ≤ timeOfDay s ∧
      timeOfDay s ≤ (f.operating_hours_end : Int) := by
  unfold Booking.create at h
  split at h
  · simp at h
  · rw [hf] at h
    dsimp only at h
    split at h
    · simp at h
    · split at h
      · simp at h
      · rename_i hhours
        push_neg at hhours
        omega

/-- Witness: the admitted booking `[09:00, 10:00)` has its start time of day
within the facility hours. -/
theorem create_ok_start_within_hours_witness :
    (gymFacility.operating_hours_start : Int) ≤ timeOfDay 540 ∧
      timeOfDay 540 ≤ (gymFacility.operating_hours_end : Int) :=
  create_ok_start_within_hours baseDB 0 1 0 540 600 (bookedRow, bookedDB)
    (by decide) gymFacility (by decide)

/-! ## C9: cancel idempotence and ownership -/

/-- C9: when no booking row matches the cancel filter (nonexistent id,
different owner, or status outside {confirmed, pending} — including already
cancelled), `Booking.cancel` returns the not-found outcome and leaves the
store unchanged; when a row matches, the cancel returns it with status
`cancelled`, and a repeated cancel of the same id by the same user returns
the not-found outcome. -/
theorem cancel_idempotent_ownership (db : DB) (id uid : Nat) :
    (db.bookings.find? (Booking.cancelPred id uid) = none →
        Booking.cancel db id uid = (none, db)) ∧
      ∀ b, db.bookings.find? (Booking.cancelPred id uid) = some b →
        (Booking.cancel db id uid).1 = some { b with status := BStatus.cancelled } ∧
          (Booking.cancel (Booking.cancel db id uid).2 id uid).1 = none := by
  constructor
  · intro hnone
    have hall : ∀ b ∈ db.bookings, Booking.cancelPred id uid b = false := by
      intro b hb
      simpa using List.find?_eq_none.mp hnone b hb
    have hmap : (db.bookings.map fun b =>
        if Booking.cancelPred id uid b then { b with status := BStatus.cancelled }
        else b) = db.bookings := by
      have h1 : ∀ b ∈ db.bookings,
          (if Booking.cancelPred id uid b then { b with status := BStatus.cancelled }
           else b) = (fun x => x) b := by
        intro b hb
        simp [hall b hb]
      calc (db.bookings.map fun b =>
              if Booking.cancelPred id uid b then { b with status := BStatus.cancelled }
              else b)
          = db.bookings.map (fun x => x) := List.map_congr_left h1
        _ = db.bookings := by simp
    unfold Booking.cancel
    rw [hnone, hmap]
    rfl
  · intro b hb
    constructor
    · unfold Booking.cancel
      rw [hb]
      rfl
    · have h2 : ((db.bookings.map fun x =>
          if Booking.cancelPred id uid x then { x with status := BStatus.cancelled }
          else x).find? (Booking.cancelPred id uid)) = none := by
        rw [List.find?_eq_none]
        intro x hx
        obtain ⟨y, _, rfl⟩ := List.mem_map.mp hx
        by_cases hpy : Booking.cancelPred id uid y = true
        · rw [if_pos hpy]
          simp [Booking.cancelPred, activeCP]
        · rw [if_neg hpy]
          simpa using hpy
      unfold Booking.cancel
      dsimp only
      rw [h2]
      rfl

/-- Witness: cancelling the confirmed own booking (id 5, user 1) succeeds and
returns it cancelled; cancelling it again returns the not-found outcome. -/
theorem cancel_idempotent_ownership_witness :
    (Booking.cancel ownDB 5 1).1 = some { ownBooking with status := BStatus.cancelled } ∧
      (Booking.cancel (Booking.cancel ownDB 5 1).2 5 1).1 = none :=
  (cancel_idempotent_ownership ownDB 5 1).2 ownBooking (by decide)

/-! ## C10: getAvailableSlots and facility status -/

/-- C10 counterexample: a facility that exists (status `maintenance`) but has
`bookingDurationMinutes = 0` and `bookingBufferMinutes = 0` makes the
generator loop without advancing, so `getAvailableSlots` produces neither a
slot list nor the not-found error — it never returns. -/
theorem zero_step_facility_never_returns :
    (pathologicalDB.facilities.find? fun f => f.id = 0) = some pathologicalFacility ∧
      pathologicalFacility.status = FStatus.maintenance ∧
      Facility.getAvailableSlots pathologicalDB 0 0 = none := by
  decide

/-- C10 (amended): `getAvailableSlots` never consults the facility status:
it returns the facility-not-found error exactly when no facility with the id
exists, and for every existing facility — whatever its status, including
`maintenance` and `closed` — whose slot duration plus buffer is positive (the
API validation admits only durations of 15..480 minutes), it returns a slot
list. -/
theorem getAvailableSlots_ignores_status (db : DB) (fid date : Nat) :
    (Facility.getAvailableSlots db fid date = some none ↔
        db.facilities.find? (fun f => f.id = fid) = none) ∧
      ∀ f, db.facilities.find? (fun f => f.id = fid) = some f →
        0 < f.booking_duration_minutes + f.booking_buffer_minutes →
        ∃ r, Facility.getAvailableSlots db fid date = some (some r) := by
  constructor
  · cases hfind : db.facilities.find? (fun f => f.id = fid) with
    | none =>
      constructor
      · intro _; rfl
      · intro _
        unfold Facility.getAvailableSlots
        rw [hfind]
    | some f =>
      constructor
      · intro hcontra
        unfold Facility.getAvailableSlots at hcontra
        rw [hfind] at hcontra
        dsimp only at hcontra
        split at hcontra <;> simp_all
      · intro hnone
        exact Option.noConfusion hnone
  · intro f hfind hpos
    unfold Facility.getAvailableSlots
    rw [hfind]
    dsimp only
    obtain ⟨l, hl⟩ :=
      genSlots_some _ f.booking_duration_minutes f.booking_buffer_minutes _ hpos
        _ _ [] (le_refl _)
    rw [hl]
    exact ⟨_, rfl⟩

/-- Witness: the maintenance facility with the normal slot configuration
still yields a slot list. -/
theorem getAvailableSlots_ignores_status_witness :
    ∃ r, Facility.getAvailableSlots maintDB 0 0 = some (some r) :=
  (getAvailableSlots_ignores_status maintDB 0 0).2 maintFacility (by decide) (by decide)

/-! ## C1: the no-overlap invariant -/

/-- Inversion of a successful `Booking.create`: the conflict scan found no
rows, an available facility was found whose duration matches the request,
and the returned row (status `confirmed`, the request interval) was appended
to the booking table; facilities are untouched. -/
theorem create_ok_inv {db : DB} {today uid fid : Nat} {s e : Int}
    {row : BookingRow} {db' : DB}
    (h : Booking.create db today uid fid s e = .ok (row, db')) :
    (conflictingBookings db fid s e).length = 0 ∧
      (∃ f, findAvailableFacility db fid = some f ∧
        e - s = (f.booking_duration_minutes : Int)) ∧
      row = { id := db.nextId, user_id := uid, facility_id := fid,
              start_time := s, end_time := e, status := BStatus.confirmed } ∧
      db'.bookings = db.bookings ++ [row] ∧ db'.facilities = db.facilities := by
  unfold Booking.create at h
  split at h
  · simp at h
  rename_i hcon
  split at h
  · simp at h
  rename_i f hf
  dsimp only at h
  split at h
  · simp at h
  rename_i hdur
  split at h
  · simp at h
  split at h
  · simp at h
  split at h
  · simp at h
  split at h
  · simp at h
  split at h
  · simp at h
  rw [Except.ok.injEq, Prod.mk.injEq] at h
  obtain ⟨hrow, hdb⟩ := h
  subst hdb
  refine ⟨by omega, ⟨f, hf, by omega⟩, hrow.symm, ?_, rfl⟩
  rw [← hrow]

/-- A successful `Booking.create` preserves well-formedness: the new row has
a non-empty interval (its length is the facility's positive duration) and,
because the conflict scan over the confirmed/pending bookings of the
facility returned no rows, it overlaps none of them. -/
theorem WF_create {db : DB} {today uid fid : Nat} {s e : Int}
    {row : BookingRow} {db' : DB} (hwf : WF db)
    (h : Booking.create db today uid fid s e = .ok (row, db')) : WF db' := by
  obtain ⟨hlen, ⟨f, hf, hdur⟩, hrow, hbk, hfac⟩ := create_ok_inv h
  have hfmem : f ∈ db.facilities := by
    unfold findAvailableFacility at hf
    exact List.mem_of_find?_eq_some hf
  have hdpos : 0 < f.booking_duration_minutes := hwf.2.1 f hfmem
  have hse : s < e := by omega
  have hnoc : ∀ b ∈ db.bookings, b.facility_id = fid → activeCP b = true →
      conflictCases b.start_time b.end_time s e = false := by
    have hnil : conflictingBookings db fid s e = [] := List.length_eq_zero.mp hlen
    unfold conflictingBookings at hnil
    intro b hb hbf hba
    have h2 := List.filter_eq_nil_iff.mp hnil b hb
    simp only [decide_eq_true_eq, not_and] at h2
    have h3 := h2 hbf hba
    cases hc : conflictCases b.start_time b.end_time s e with
    | false => rfl
    | true => exact absurd hc h3
  refine ⟨?_, ?_, ?_⟩
  · intro b hb
    rw [hbk] at hb
    rcases List.mem_append.mp hb with hb1 | hb2
    · exact hwf.1 b hb1
    · rw [List.mem_singleton.mp hb2, hrow]
      exact hse
  · rw [hfac]
    exact hwf.2.1
  · rw [show db'.bookings = db.bookings ++ [row] from hbk]
    unfold NoOverlapCP
    rw [List.pairwise_append]
    refine ⟨hwf.2.2, List.pairwise_singleton _ _, ?_⟩
    intro a ha b hb hfacid hacta hactb
    rw [List.mem_singleton.mp hb] at hfacid hactb ⊢
    have hafid : a.facility_id = fid := by rw [hrow] at hfacid; exact hfacid
    have hcc : conflictCases a.start_time a.end_time s e = false :=
      hnoc a ha hafid hacta
    have haw : a.start_time < a.end_time := hwf.1 a ha
    have hov : overlaps a.start_time a.end_time s e = false := by
      rw [← conflictCases_eq_overlaps haw hse]
      exact hcc
    rw [hrow]
    exact hov

/-- Rewriting booking statuses row by row preserves well-formedness as long
as each row keeps its facility and interval and no row becomes
confirmed/pending that was not already. -/
theorem WF_map_status (db : DB) (f : BookingRow → BookingRow)
    (hpres : ∀ b, (f b).facility_id = b.facility_id ∧
      (f b).start_time = b.start_time ∧ (f b).end_time = b.end_time)
    (hact : ∀ b, activeCP (f b) = true → activeCP b = true)
    (hwf : WF db) : WF { db with bookings := db.bookings.map f } := by
  refine ⟨?_, hwf.2.1, ?_⟩
  · intro x hx
    obtain ⟨y, hy, rfl⟩ := List.mem_map.mp hx
    obtain ⟨_, h2, h3⟩ := hpres y
    rw [h2, h3]
    exact hwf.1 y hy
  · refine List.Pairwise.map f ?_ hwf.2.2
    intro a b hR hfac hfa hfb
    obtain ⟨ha1, ha2, ha3⟩ := hpres a
    obtain ⟨hb1, hb2, hb3⟩ := hpres b
    rw [ha2, ha3, hb2, hb3]
    exact hR (by rw [ha1, hb1] at hfac; exact hfac) (hact a hfa) (hact b hfb)

/-- `Booking.cancel` preserves well-formedness: it only moves rows to status
`cancelled`. -/
theorem WF_cancel (db : DB) (id uid : Nat) (hwf : WF db) :
    WF (Booking.cancel db id uid).2 := by
  have h := WF_map_status db
    (fun b => if Booking.cancelPred id uid b then { b with status := BStatus.cancelled }
     else b) ?_ ?_ hwf
  · exact h
  · intro b
    dsimp only
    by_cases hp : Booking.cancelPred id uid b = true
    · rw [if_pos hp]; exact ⟨rfl, rfl, rfl⟩
    · rw [if_neg hp]; exact ⟨rfl, rfl, rfl⟩
  · intro b hb
    dsimp only at hb
    by_cases hp : Booking.cancelPred id uid b = true
    · rw [if_pos hp] at hb
      exact absurd hb (by simp [activeCP])
    · rw [if_neg hp] at hb
      exact hb

/-- `Booking.updateStatus` preserves well-formedness whenever the written
status is outside {confirmed, pending} — which covers every transition the
spec names for the staff/admin status update. -/
theorem WF_updateStatus (db : DB) (id : Nat) (st : BStatus)
    (hst : activeStatus st = false) (hwf : WF db) :
    WF (Booking.updateStatus db id st).2 := by
  have h := WF_map_status db
    (fun b => if b.id = id then { b with status := st } else b) ?_ ?_ hwf
  · exact h
  · intro b
    dsimp only
    by_cases hp : b.id = id
    · rw [if_pos hp]; exact ⟨rfl, rfl, rfl⟩
    · rw [if_neg hp]; exact ⟨rfl, rfl, rfl⟩
  · intro b hb
    dsimp only at hb
    by_cases hp : b.id = id
    · rw [if_pos hp] at hb
      have hcp : activeCP { b with status := st } = false := hst
      rw [hcp] at hb
      exact Bool.noConfusion hb
    · rw [if_neg hp] at hb
      exact hb

/-- Any sequence of `create`, `cancel`, and status updates to non-active
statuses preserves well-formedness. -/
theorem run_WF : ∀ (ops : List Op) (db : DB),
    (∀ op ∈ ops, Op.allowed op = true) → WF db → WF (run db ops)
  | [], _, _, hwf => hwf
  | op :: rest, db, hops, hwf => by
    have hstep : WF (applyOp db op) := by
      cases op with
      | create t u fi s e =>
        dsimp only [applyOp]
        split
        · rename_i x db2 heq
          exact WF_create hwf heq
        · exact hwf
      | cancel i u => exact WF_cancel db i u hwf
      | updateStatus i st =>
        have hall : Op.allowed (Op.updateStatus i st) = true :=
          hops _ (List.mem_cons_self _ _)
        have hst : activeStatus st = false := by
          simpa [Op.allowed] using hall
        exact WF_updateStatus db i st hst hwf
    exact run_WF rest (applyOp db op)
      (fun o ho => hops o (List.mem_cons_of_mem _ ho)) hstep

/-- C1 (amended): the invariant the code maintains is over statuses
{confirmed, pending} — the set the conflict query scans — not
{confirmed, completed}: starting from a well-formed store, any sequence of
`createBooking`, `cancelBooking`, and `updateBookingStatus` operations whose
status updates write a status outside {confirmed, pending} (which includes
every transition the spec names for the status update) leaves, for every
facility, the bookings with status in {confirmed, pending} pairwise
non-overlapping under the half-open test.  Completed bookings are not
protected: see the counterexample. -/
theorem create_cancel_update_preserve_no_overlap (db : DB) (ops : List Op)
    (hops : ∀ op ∈ ops, Op.allowed op = true) (hwf : WF db) :
    WF (run db ops) :=
  run_WF ops db hops hwf

/-- Witness: the invariant holds after booking `[09:00, 10:00)`, marking it
completed, and then attempting a cancel, starting from the well-formed empty
store. -/
theorem create_cancel_update_preserve_no_overlap_witness :
    WF (run baseDB
      [Op.create 0 1 0 540 600, Op.updateStatus 0 BStatus.completed,
       Op.cancel 0 1]) :=
  create_cancel_update_preserve_no_overlap baseDB
    [Op.create 0 1 0 540 600, Op.updateStatus 0 BStatus.completed, Op.cancel 0 1]
    (by decide) (by decide)

/-- C1 counterexample: the claimed invariant over {confirmed, completed} is
not preserved.  From a store satisfying it whose only booking is a completed
`[09:00, 10:00)`, a single `createBooking` for the same facility and interval
succeeds — the conflict scan only covers confirmed/pending — leaving two
bookings with status in {confirmed, completed} whose intervals overlap. -/
theorem completed_overlap_not_prevented :
    NoOverlapCC completedDB.bookings ∧
      ¬ NoOverlapCC (run completedDB [Op.create 0 1 0 540 600]).bookings := by
  decide
